import Mathlib

/-!
Verification of the tool-calling conversation core of the myBrain repository.

The definitions below are a shallow embedding of the Python sources:
* `aiagent/handler/query.py` — `query_openai` (tool-calling loop), `update_memory`,
  `ask_ai` (memory-manager construction and the memory-update guard);
* `aiagent/memory/memory_manager.py` — `BaseMemoryManager` and its `set`/`get`
  dictionary operations;
* `server/endpoints/ai_endpoints.py` — the conversation-append step of
  `process_ai_query` (append a turn, truncate to the most recent 50);
* `aiagent/functions/schema/twilio.py` — the module-global reads of
  `send_twilio_message`.

Python dictionaries are modelled as association lists, Python strings that must
be computed on (split / strip / startswith) as lists of characters, machine
calls to the model provider as an oracle sequence of responses, and raised
exceptions as `Except.error` values.
-/

/- ========================================================================
   Data model of the orchestrator (aiagent/handler/query.py)
   ======================================================================== -/

/-- The `function` part of a model-issued tool call: a tool name together with
its raw JSON argument string (`tool_call.function` in the OpenAI response). -/
structure ToolFunction where
  name : String
  arguments : String
deriving DecidableEq

/-- A model-issued tool call: `{id, function}` as delivered by the provider. -/
structure ToolCall where
  id : String
  function : ToolFunction
deriving DecidableEq

/-- One model response choice: optional text content, the requested tool calls
(`[]` models Python `None` as well, since `if not tool_calls` treats both the
empty list and `None` alike), and the provider's finish reason. -/
structure ModelResponse where
  content : Option String
  tool_calls : List ToolCall
  finish_reason : String
deriving DecidableEq

/-- A message of the conversation transcript built by `query_openai`. -/
inductive Message where
  | system (content : String)
  | user (content : String)
  | assistant (content : String) (tool_calls : List ToolCall)
  | tool (tool_call_id : String) (name : String) (content : String)
deriving DecidableEq

/-- Argument map handed to a tool (the parsed JSON object). -/
abbrev ArgMap := List (String × String)

/-- A JSON-serialisable tool result: either a raw string or a flat object. -/
inductive ToolValue where
  | str (s : String)
  | obj (fields : List (String × String))
deriving DecidableEq

/-- Modelled from the spec: the file `aiagent/functions/registry.py` (class
`FunctionsRegistry`) is imported by `query.py` but is not present under the
source tree; spec §4.1 describes it as a catalog of named callables.  A tool
callable that raises is modelled as returning `Except.error msg`. -/
structure FunctionsRegistry where
  function_map : List (String × (ArgMap → Except String ToolValue))

/-- Modelled from the spec (§4.1, `resolve_function`): look up the callable by
name; an unknown name yields a structured error, and any exception raised by
the tool is caught at this boundary and converted into
`{status: "error", message: ...}` rather than propagated. -/
def resolve_function (reg : FunctionsRegistry) (name : String) (args : ArgMap) :
    ToolValue :=
  match reg.function_map.find? (fun p => p.fst == name) with
  | none => ToolValue.obj [("status", "error"), ("message", "Unknown function: " ++ name)]
  | some p =>
    match p.snd args with
    | Except.ok v => v
    | Except.error msg => ToolValue.obj [("status", "error"), ("message", msg)]

/-- Whether a tool result is a map containing the error indicator
`status = "error"`. -/
def hasErrorIndicator : ToolValue → Bool
  | ToolValue.str _ => false
  | ToolValue.obj fields => fields.any (fun p => p.fst == "status" && p.snd == "error")

/-- `query.py` line 360: a string result is passed through unchanged, any other
result is JSON-serialised before being placed in the tool message. -/
def serialiseResult : ToolValue → String
  | ToolValue.str s => s
  | ToolValue.obj fields =>
      "\x7b" ++ String.intercalate ", "
        (fields.map (fun p => "\"" ++ p.fst ++ "\": \"" ++ p.snd ++ "\"")) ++ "\x7d"

/-- `query.py` lines 349-353: `json.loads` applied to the raw argument string,
with a parse failure (`jsonLoads` returning `none`) yielding the empty
argument map instead of aborting.  `jsonLoads` abstracts the external JSON
parser. -/
def parsedArguments (jsonLoads : String → Option ArgMap) (raw : String) : ArgMap :=
  match jsonLoads raw with
  | some m => m
  | none => []

/-- `query.py` lines 342-369: execute one requested tool call and build the
tool-role message keyed by the original call id. -/
def toolResultMessage (reg : FunctionsRegistry) (jsonLoads : String → Option ArgMap)
    (tc : ToolCall) : Message :=
  Message.tool tc.id tc.function.name
    (serialiseResult
      (resolve_function reg tc.function.name
        (parsedArguments jsonLoads tc.function.arguments)))

/-- `query.py` lines 333-369: the messages appended for one tool-calling model
response — the assistant message carrying the tool calls verbatim, followed by
one tool-role message per requested call, in request order. -/
def toolRoundMessages (reg : FunctionsRegistry) (jsonLoads : String → Option ArgMap)
    (rm : ModelResponse) : List Message :=
  Message.assistant (rm.content.getD "") rm.tool_calls
    :: rm.tool_calls.map (toolResultMessage reg jsonLoads)

/-- `query.py` line 322: `max_tool_iterations = 5`. -/
def max_tool_iterations : Nat := 5

/-- The state in which the `while True` loop of `query_openai` terminates. -/
structure LoopResult where
  response : ModelResponse
  messages : List Message
  iteration : Nat

/-- `query.py` lines 321-378: the tool-calling loop.  `respSeq n` is the
response of the (n+1)-st `client.chat.completions.create` call (the model is
an external oracle).  The loop breaks when the current response requests no
tool calls or when `iteration` has reached `max_tool_iterations`; otherwise it
increments `iteration`, appends the assistant and tool messages, and asks the
model again. -/
def toolLoop (reg : FunctionsRegistry) (jsonLoads : String → Option ArgMap)
    (respSeq : Nat → ModelResponse) (msgs : List Message) (rm : ModelResponse)
    (iteration : Nat) : LoopResult :=
  if h : rm.tool_calls = [] ∨ max_tool_iterations ≤ iteration then
    ⟨rm, msgs, iteration⟩
  else
    toolLoop reg jsonLoads respSeq (msgs ++ toolRoundMessages reg jsonLoads rm)
      (respSeq (iteration + 1)) (iteration + 1)
termination_by max_tool_iterations - iteration
decreasing_by
  push_neg at h
  simp only [max_tool_iterations] at *
  omega

/-- `query.py` lines 380-397: extract the final answer.  Non-null content is
returned as is; null content is surfaced as an error string naming the finish
reason. -/
def extractResponse (rm : ModelResponse) : String :=
  match rm.content with
  | some c => c
  | none =>
      "Error querying AI: OPENAI response message content is None. Finish reason: "
        ++ rm.finish_reason ++ "."

/-- `query.py` lines 230-231: `client.api_key` is falsy when the
`OPENAI_API_KEY` environment variable is unset (`none`) or empty. -/
def apiKeyMissing : Option String → Bool
  | none => true
  | some s => s == ""

/-- `query.py` lines 194-397, `query_openai`: the credential check followed by
the tool-calling loop over the oracle of model responses, and the final
extraction.  `initialMessages` stands for the system/context/user messages
composed before the first model call. -/
def query_openai (api_key : Option String) (reg : FunctionsRegistry)
    (jsonLoads : String → Option ArgMap) (respSeq : Nat → ModelResponse)
    (initialMessages : List Message) : String :=
  if apiKeyMissing api_key then
    "Error: No OpenAI API key found. Set OPENAI_API_KEY in .env"
  else
    extractResponse
      (toolLoop reg jsonLoads respSeq initialMessages (respSeq 0) 0).response

/-- The key of a tool-role message, `none` for every other role. -/
def toolCallIdOf : Message → Option String
  | Message.tool tool_call_id _ _ => some tool_call_id
  | _ => none

/- Concrete inputs used by witnesses and counterexamples. -/

/-- A JSON parser stub on which every parse fails. -/
def jsonNone : String → Option ArgMap := fun _ => none

/-- A registry with no registered functions. -/
def emptyRegistry : FunctionsRegistry := ⟨[]⟩

/-- A registry with one tool whose callable always raises. -/
def sampleRegistry : FunctionsRegistry :=
  ⟨[("boom", fun _ => Except.error "boom failed")]⟩

/-- A model that requests a tool call on every round and never produces
content. -/
def respAlwaysTool : Nat → ModelResponse :=
  fun _ => ⟨none, [⟨"call_a", ⟨"noop", "\x7b\x7d"⟩⟩], "tool_calls"⟩

/-- A model that requests a tool call on every round and always carries the
content "done". -/
def respToolWithContent : Nat → ModelResponse :=
  fun _ => ⟨some "done", [⟨"call_a", ⟨"noop", "\x7b\x7d"⟩⟩], "tool_calls"⟩

/- ========================================================================
   Python string primitives (modelled on lists of characters)
   ======================================================================== -/

/-- A Python string, modelled as its list of characters. -/
abbrev PyStr := List Char

/-- The whitespace characters stripped by Python `str.strip()` (the ones
relevant to this code base). -/
def isSpace (c : Char) : Bool := c == ' ' || c == '\t' || c == '\n' || c == '\r'

/-- Python `str.strip()`: remove leading and trailing whitespace. -/
def pyStrip (s : PyStr) : PyStr :=
  ((s.dropWhile isSpace).reverse.dropWhile isSpace).reverse

/-- Python `str.split(sep)` for a one-character separator: split on every
occurrence; the empty string yields `[""]`. -/
def pySplitOn (sep : Char) : PyStr → List PyStr
  | [] => [[]]
  | c :: rest =>
    let r := pySplitOn sep rest
    if c == sep then [] :: r
    else
      match r with
      | [] => [[c]]
      | h :: t => (c :: h) :: t

/-- Python `str.startswith(p)`. -/
def pyStartswith (p s : PyStr) : Bool := p.isPrefixOf s

/- ========================================================================
   Dictionaries (Python dict assignment and lookup)
   ======================================================================== -/

/-- Python `d[k] = v` on a dictionary modelled as an association list:
overwrite the existing binding or append a new one. -/
def dictSet {κ ν : Type} [BEq κ] (d : List (κ × ν)) (k : κ) (v : ν) : List (κ × ν) :=
  if d.any (fun p => p.fst == k) then
    d.map (fun p => if p.fst == k then (k, v) else p)
  else
    d ++ [(k, v)]

/-- Python `d.get(k, fallback)`. -/
def dictGet {κ ν : Type} [BEq κ] (d : List (κ × ν)) (k : κ) (fallback : ν) : ν :=
  match d.find? (fun p => p.fst == k) with
  | some p => p.snd
  | none => fallback

/- ========================================================================
   update_memory (aiagent/handler/query.py lines 463-524)
   ======================================================================== -/

/-- A memory document `_memory_content`: a Python dict from strings to
strings, as mutated by `BaseMemoryManager.set` (`memory_manager.py` line 29). -/
abbrev Memory := List (PyStr × PyStr)

/-- `query.py` lines 507-521: the parsing loop of `update_memory` over the
comma-separated suggested updates.  Each line is stripped; a line starting
with `None` is skipped; a line splitting on `:` into exactly a key and a value
is applied via the memory's `set` and records `updated = True`; any other
shape raises `ValueError` in Python, which the enclosing `try` converts into
returning `False` — modelled by stopping and returning the memory written so
far paired with `false`. -/
def applyUpdates : Memory → Bool → List PyStr → Memory × Bool
  | mem, updated, [] => (mem, updated)
  | mem, updated, u :: rest =>
    let t := pyStrip u
    if pyStartswith "None".data t then
      applyUpdates mem updated rest
    else
      match pySplitOn ':' t with
      | [k, v] => applyUpdates (dictSet mem (pyStrip k) (pyStrip v)) true rest
      | _ => (mem, false)

/-- `query.py` lines 503-524: split the model's suggested-update text on
commas and run the parsing loop, starting from `updated = False`.  Returns the
resulting memory document and the boolean `update_memory` returns. -/
def update_memory (mem : Memory) (suggested_updates : PyStr) : Memory × Bool :=
  applyUpdates mem false (pySplitOn ',' suggested_updates)

/-- A line of the suggested-update text that does not raise in the parsing
loop: it is skipped (starts with `None`) or splits on `:` into exactly two
parts. -/
def lineOk (u : PyStr) : Bool :=
  pyStartswith "None".data (pyStrip u) || (pySplitOn ':' (pyStrip u)).length == 2

/- ========================================================================
   Conversation append (server/endpoints/ai_endpoints.py lines 165-201)
   ======================================================================== -/

/-- `ai_endpoints.py` lines 176-187 (`process_ai_query`): append the new turn
to the `conversations` list, then keep only the most recent 50 entries
(`conversations = conversations[-50:]` when the length exceeds 50).  The code
never inspects the turns themselves, so the element type is a parameter. -/
def appendConversation {α : Type} (conversations : List α) (turn : α) : List α :=
  let c := conversations ++ [turn]
  if 50 < c.length then c.drop (c.length - 50) else c

/-- The most recent `n` entries of a list (Python `l[-n:]`). -/
def lastN {α : Type} (n : Nat) (l : List α) : List α := l.drop (l.length - n)

/- ========================================================================
   ask_ai (aiagent/handler/query.py lines 527-603)
   ======================================================================== -/

/-- Python keyword binding against a signature without `**kwargs`: the first
keyword argument that is not a declared parameter name, if any. -/
def bindKwargs (accepted : List String) (kwargs : List String) : Option String :=
  kwargs.find? (fun k => !(accepted.contains k))

/-- A Python call: binding a keyword argument absent from the callee's
signature raises `TypeError`. -/
def pyCall (fname : String) (accepted : List String) (kwargs : List String) :
    Except String Unit :=
  match bindKwargs accepted kwargs with
  | some k =>
      Except.error ("TypeError: " ++ fname ++ " got an unexpected keyword argument " ++ k)
  | none => Except.ok ()

/-- `memory_manager.py` lines 13, 46, 97: `BaseMemoryManager.__init__` and the
`__init__` of both subclasses declare the single keyword parameter
`memory_content`. -/
def memoryManagerInitParams : List String := ["memory_content"]

/-- `query.py` lines 194-201: the declared parameters of `query_openai`. -/
def queryOpenaiParams : List String :=
  ["query", "long_term_memory", "short_term_memory", "max_tokens", "temperature", "aux_data"]

/-- `query.py` lines 562-563: `ask_ai` constructs both memory managers with
the single keyword argument `memory_file`. -/
def askAiMemoryManagerKwargs : List String := ["memory_file"]

/-- `query.py` lines 582-590: the keyword arguments `ask_ai` passes to
`query_openai`, in source order. -/
def askAiQueryOpenaiKwargs : List String :=
  ["query", "long_term_memory", "short_term_memory", "aux_data", "references",
   "max_tokens", "temperature"]

/-- `query.py` lines 549-590, `ask_ai` up to the model call: construct the two
memory managers, then call `query_openai`.  Each Python call is preceded by
its keyword-binding check; a binding failure raises `TypeError`
(`Except.error`), which `ask_ai` does not catch. -/
def ask_ai (api_key : Option String) (reg : FunctionsRegistry)
    (jsonLoads : String → Option ArgMap) (respSeq : Nat → ModelResponse) :
    Except String String := do
  _ ← pyCall "LongTermMemoryManager" memoryManagerInitParams askAiMemoryManagerKwargs
  _ ← pyCall "ShortTermMemoryManager" memoryManagerInitParams askAiMemoryManagerKwargs
  _ ← pyCall "query_openai" queryOpenaiParams askAiQueryOpenaiKwargs
  pure (query_openai api_key reg jsonLoads respSeq [])

/-- `query.py` line 593: the guard under which `ask_ai` appends the turn to
short-term memory — `not response.startswith("Error:") and update_memory`. -/
def askAiMemoryGuard (response : String) (updateMemory : Bool) : Bool :=
  !(pyStartswith "Error:".data response.data) && updateMemory

/- ========================================================================
   Module globals (query.py lines 296-302, twilio.py lines 86-103)
   ======================================================================== -/

/-- The module-level namespaces involved in the SMS-tracking handshake: Python
`globals()` is per module, so the dictionaries of `aiagent.handler.query` and
`aiagent.functions.schema.twilio` are distinct. -/
structure ModuleGlobals where
  handler_query : List (String × String)
  schema_twilio : List (String × String)

/-- `query.py` lines 300-302: `query_openai` stores the current query and the
message source into `globals()` of its own module,
`aiagent.handler.query`. -/
def setQueryTrackingGlobals (g : ModuleGlobals) (query source : String) : ModuleGlobals :=
  { g with
    handler_query :=
      dictSet (dictSet g.handler_query "CURRENT_QUERY" query) "MESSAGE_SOURCE" source }

/-- `twilio.py` line 90: `send_twilio_message` reads
`globals().get("CURRENT_QUERY", "Unknown request")` in its own module,
`aiagent.functions.schema.twilio`. -/
def twilioOriginalRequest (g : ModuleGlobals) : String :=
  dictGet g.schema_twilio "CURRENT_QUERY" "Unknown request"

/-- `twilio.py` line 91: `send_twilio_message` reads
`globals().get("MESSAGE_SOURCE", "website_visitor")` in its own module. -/
def twilioMessageSource (g : ModuleGlobals) : String :=
  dictGet g.schema_twilio "MESSAGE_SOURCE" "website_visitor"

/-- A state of the two module namespaces at interpreter start: the
`aiagent.functions.schema.twilio` module defines only its imports, models and
functions at top level — neither `CURRENT_QUERY` nor `MESSAGE_SOURCE` is ever
bound there. -/
def initialGlobals : ModuleGlobals :=
  ⟨[], [("function_schema", "decorator"), ("send_twilio_message", "function")]⟩

/- ========================================================================
   Helper lemmas about the loop
   ======================================================================== -/

theorem toolLoop_stop (reg : FunctionsRegistry) (jsonLoads : String → Option ArgMap)
    (respSeq : Nat → ModelResponse) (msgs : List Message) (rm : ModelResponse)
    (it : Nat) (h : max_tool_iterations ≤ it) :
    toolLoop reg jsonLoads respSeq msgs rm it = ⟨rm, msgs, it⟩ := by
  rw [toolLoop, dif_pos (Or.inr h)]

theorem toolLoop_step (reg : FunctionsRegistry) (jsonLoads : String → Option ArgMap)
    (respSeq : Nat → ModelResponse) (msgs : List Message) (rm : ModelResponse)
    (it : Nat) (h1 : rm.tool_calls ≠ []) (h2 : it < max_tool_iterations) :
    toolLoop reg jsonLoads respSeq msgs rm it =
      toolLoop reg jsonLoads respSeq (msgs ++ toolRoundMessages reg jsonLoads rm)
        (respSeq (it + 1)) (it + 1) := by
  rw [toolLoop]
  rw [dif_neg]
  push_neg
  exact ⟨h1, by omega⟩

theorem toolLoop_runs_five (reg : FunctionsRegistry) (jsonLoads : String → Option ArgMap)
    (respSeq : Nat → ModelResponse) (msgs : List Message)
    (htc : ∀ n, (respSeq n).tool_calls ≠ []) :
    (toolLoop reg jsonLoads respSeq msgs (respSeq 0) 0).response = respSeq 5 ∧
    (toolLoop reg jsonLoads respSeq msgs (respSeq 0) 0).iteration = 5 := by
  rw [toolLoop_step _ _ _ _ _ _ (htc 0) (by simp [max_tool_iterations]),
      toolLoop_step _ _ _ _ _ _ (htc 1) (by simp [max_tool_iterations]),
      toolLoop_step _ _ _ _ _ _ (htc 2) (by simp [max_tool_iterations]),
      toolLoop_step _ _ _ _ _ _ (htc 3) (by simp [max_tool_iterations]),
      toolLoop_step _ _ _ _ _ _ (htc 4) (by simp [max_tool_iterations]),
      toolLoop_stop _ _ _ _ _ _ (by simp [max_tool_iterations])]
  exact ⟨rfl, rfl⟩

/- ========================================================================
   Helper lemmas about the conversation-append step
   ======================================================================== -/

theorem appendConversation_eq_lastN {α : Type} (s : List α) (t : α) :
    appendConversation s t = lastN 50 (s ++ [t]) := by
  simp only [appendConversation, lastN]
  split
  · rfl
  · rename_i hle
    have h0 : (s ++ [t]).length - 50 = 0 := by
      simp only [List.length_append, List.length_cons, List.length_nil] at hle ⊢
      omega
    rw [h0, List.drop_zero]

theorem lastN_append_lastN {α : Type} (n : Nat) (x y : List α) :
    lastN n (lastN n x ++ y) = lastN n (x ++ y) := by
  simp only [lastN]
  rw [← List.drop_append_of_le_length (by omega : x.length - n ≤ x.length)]
  rw [List.drop_drop]
  congr 1
  simp only [List.length_drop, List.length_append]
  omega

theorem lastN_length_le {α : Type} (n : Nat) (l : List α) : (lastN n l).length ≤ n := by
  simp only [lastN, List.length_drop]
  omega

theorem foldl_appendConversation {α : Type} (l : List α) :
    ∀ s : List α, s.length ≤ 50 →
      l.foldl appendConversation s = lastN 50 (s ++ l) := by
  induction l with
  | nil =>
      intro s hs
      simp [lastN, Nat.sub_eq_zero_of_le hs]
  | cons t rest ih =>
      intro s hs
      rw [List.foldl_cons, appendConversation_eq_lastN,
        ih _ (lastN_length_le 50 (s ++ [t])), lastN_append_lastN]
      simp

/- ========================================================================
   Helper lemma for the tool-result ids
   ======================================================================== -/

theorem filterMap_toolResultMessage (reg : FunctionsRegistry)
    (jsonLoads : String → Option ArgMap) (tcs : List ToolCall) :
    (tcs.map (toolResultMessage reg jsonLoads)).filterMap toolCallIdOf =
      tcs.map (fun tc => tc.id) := by
  induction tcs with
  | nil => rfl
  | cons a l ih => simp [toolResultMessage, toolCallIdOf, ih]

/- ========================================================================
   Claim theorems
   ======================================================================== -/

/-- Claim C1, counterexample to the claim as stated: a model that requests a
tool call on every round and whose final (capped) response has null content.
The claim says the last available assistant content is returned "even if it is
empty/null", but `query_openai` returns an error string naming the finish
reason instead of the (null, i.e. empty) content. -/
theorem query_openai_cap_error_string_not_content :
    query_openai (some "test-key") emptyRegistry jsonNone respAlwaysTool [] =
      "Error querying AI: OPENAI response message content is None. Finish reason: tool_calls." ∧
    (respAlwaysTool 5).content = none ∧
    query_openai (some "test-key") emptyRegistry jsonNone respAlwaysTool [] ≠ "" := by
  have htc : ∀ n, (respAlwaysTool n).tool_calls ≠ [] := by
    intro n
    simp [respAlwaysTool]
  obtain ⟨h1, _⟩ := toolLoop_runs_five emptyRegistry jsonNone respAlwaysTool [] htc
  have hmain : query_openai (some "test-key") emptyRegistry jsonNone respAlwaysTool [] =
      "Error querying AI: OPENAI response message content is None. Finish reason: tool_calls." := by
    simp only [query_openai]
    rw [if_neg (by decide)]
    rw [h1]
    rfl
  refine ⟨hmain, rfl, ?_⟩
  rw [hmain]
  decide

/-- Claim C1 (amended): for any sequence of model responses that always
requests at least one tool call, `query_openai` terminates after exactly 5
tool-call round-trips (the hard iteration cap) and then returns the final
response's content when it is non-null (even if empty); when the final content
is null it returns the error string produced by `extractResponse`, which names
the finish reason, rather than the null content itself. -/
theorem query_openai_iteration_cap (api_key : Option String) (reg : FunctionsRegistry)
    (jsonLoads : String → Option ArgMap) (respSeq : Nat → ModelResponse)
    (initialMessages : List Message)
    (hkey : apiKeyMissing api_key = false)
    (htc : ∀ n, (respSeq n).tool_calls ≠ []) :
    (toolLoop reg jsonLoads respSeq initialMessages (respSeq 0) 0).iteration = 5 ∧
    query_openai api_key reg jsonLoads respSeq initialMessages =
      extractResponse (respSeq 5) := by
  obtain ⟨h1, h2⟩ := toolLoop_runs_five reg jsonLoads respSeq initialMessages htc
  refine ⟨h2, ?_⟩
  simp only [query_openai, hkey, Bool.false_eq_true, if_false]
  rw [h1]

/-- Witness for C1: a concrete always-tool-calling model with content "done";
the loop stops at iteration 5 and the content of the 6th response is
returned. -/
theorem query_openai_iteration_cap_witness :
    (apiKeyMissing (some "test-key") = false ∧
      (∀ n, (respToolWithContent n).tool_calls ≠ [])) ∧
    ((toolLoop sampleRegistry jsonNone respToolWithContent []
        (respToolWithContent 0) 0).iteration = 5 ∧
      query_openai (some "test-key") sampleRegistry jsonNone respToolWithContent [] =
        extractResponse (respToolWithContent 5)) :=
  ⟨⟨rfl, fun _ => by simp [respToolWithContent]⟩,
    query_openai_iteration_cap (some "test-key") sampleRegistry jsonNone
      respToolWithContent [] rfl (fun _ => by simp [respToolWithContent])⟩

/-- Claim C2: for every registered tool and every argument map, if the tool's
callable raises (modelled as `Except.error`), `resolve_function` does not
propagate it: it returns the structured map
`{status: "error", message: ...}`, which contains the error indicator. -/
theorem resolve_function_error_containment (reg : FunctionsRegistry) (name : String)
    (args : ArgMap) (f : ArgMap → Except String ToolValue) (msg : String)
    (hfind : reg.function_map.find? (fun p => p.fst == name) = some (name, f))
    (hraise : f args = Except.error msg) :
    resolve_function reg name args = ToolValue.obj [("status", "error"), ("message", msg)] ∧
    hasErrorIndicator (resolve_function reg name args) = true := by
  have h : resolve_function reg name args =
      ToolValue.obj [("status", "error"), ("message", msg)] := by
    unfold resolve_function
    rw [hfind]
    simp [hraise]
  refine ⟨h, ?_⟩
  rw [h]
  simp [hasErrorIndicator]

/-- Witness for C2: a registry with one tool that always raises. -/
theorem resolve_function_error_containment_witness :
    resolve_function sampleRegistry "boom" [("x", "1")] =
      ToolValue.obj [("status", "error"), ("message", "boom failed")] ∧
    hasErrorIndicator (resolve_function sampleRegistry "boom" [("x", "1")]) = true :=
  resolve_function_error_containment sampleRegistry "boom" [("x", "1")]
    (fun _ => Except.error "boom failed") "boom failed" rfl rfl

/-- Claim C3: after appending N > 50 conversation turns sequentially via the
conversation-append step of `process_ai_query`, the `conversations` list has
length exactly 50 and equals the most recent 50 turns in chronological order
(the oldest dropped first). -/
theorem conversations_bounded_fifty {α : Type} (turns : List α)
    (h : 50 < turns.length) :
    (turns.foldl appendConversation ([] : List α)).length = 50 ∧
    turns.foldl appendConversation ([] : List α) =
      turns.drop (turns.length - 50) := by
  have hfold := foldl_appendConversation turns [] (by simp)
  simp only [List.nil_append] at hfold
  refine ⟨?_, by rw [hfold]; exact rfl⟩
  rw [hfold]
  simp only [lastN, List.length_drop]
  omega

/-- Witness for C3: 51 distinct turns; the fold keeps exactly the last 50. -/
theorem conversations_bounded_fifty_witness :
    50 < (List.range 51).length ∧
    (((List.range 51).foldl appendConversation ([] : List Nat)).length = 50 ∧
      (List.range 51).foldl appendConversation ([] : List Nat) =
        (List.range 51).drop ((List.range 51).length - 50)) :=
  ⟨by decide, conversations_bounded_fifty (List.range 51) (by decide)⟩

/-- Claim C4 (code bug): on a malformed/empty model response (null content),
`query_openai` does return a user-visible error string naming the finish
reason — but that string starts with "Error querying AI:", not "Error:", so
the memory-update guard of `ask_ai` (line 593, `not
response.startswith("Error:")`) evaluates to true and the conversation turn
WOULD be appended, contradicting the claim (and the code's own comment
"Only create summary and update memory if query was successful"). -/
theorem error_turn_passes_memory_guard :
    extractResponse ⟨none, [], "length"⟩ =
      "Error querying AI: OPENAI response message content is None. Finish reason: length." ∧
    askAiMemoryGuard (extractResponse ⟨none, [], "length"⟩) true = true := by
  constructor
  · rfl
  · decide

/-- Claim C5: for every model response containing tool calls, the tool-result
messages appended by the orchestrator carry exactly the same tool_call ids, in
the same order the model requested them, each keyed by its original call
id. -/
theorem tool_call_id_round_trip (reg : FunctionsRegistry)
    (jsonLoads : String → Option ArgMap) (rm : ModelResponse) :
    (toolRoundMessages reg jsonLoads rm).filterMap toolCallIdOf =
      rm.tool_calls.map (fun tc => tc.id) := by
  simp only [toolRoundMessages, List.filterMap_cons, toolCallIdOf]
  exact filterMap_toolResultMessage reg jsonLoads rm.tool_calls

/-- Claim C6: a missing (or empty) model-provider credential makes
`query_openai` return a direct error string; the result does not depend on the
model oracle at all, so no network call is made, and the function returns
normally (no exception escapes). -/
theorem missing_api_key_short_circuit :
    ∀ (reg : FunctionsRegistry) (jsonLoads : String → Option ArgMap)
      (respSeq : Nat → ModelResponse) (initialMessages : List Message),
      query_openai none reg jsonLoads respSeq initialMessages =
          "Error: No OpenAI API key found. Set OPENAI_API_KEY in .env" ∧
      query_openai (some "") reg jsonLoads respSeq initialMessages =
          "Error: No OpenAI API key found. Set OPENAI_API_KEY in .env" :=
  fun _ _ _ _ => ⟨rfl, rfl⟩

/-- Claim C7: a tool call whose JSON argument string fails to parse is given
the empty argument map instead of aborting the turn, and the tool is still
dispatched through the registry with those empty arguments. -/
theorem arg_parse_failure_empty_fallback (reg : FunctionsRegistry)
    (jsonLoads : String → Option ArgMap) (tc : ToolCall)
    (h : jsonLoads tc.function.arguments = none) :
    parsedArguments jsonLoads tc.function.arguments = [] ∧
    toolResultMessage reg jsonLoads tc =
      Message.tool tc.id tc.function.name
        (serialiseResult (resolve_function reg tc.function.name [])) := by
  have hp : parsedArguments jsonLoads tc.function.arguments = [] := by
    unfold parsedArguments
    rw [h]
  refine ⟨hp, ?_⟩
  unfold toolResultMessage
  rw [hp]

/-- Witness for C7: a concrete unparseable argument string. -/
theorem arg_parse_failure_empty_fallback_witness :
    jsonNone "not json" = none ∧
    (parsedArguments jsonNone "not json" = [] ∧
      toolResultMessage sampleRegistry jsonNone ⟨"call_1", ⟨"boom", "not json"⟩⟩ =
        Message.tool "call_1" "boom"
          (serialiseResult (resolve_function sampleRegistry "boom" []))) :=
  ⟨rfl, arg_parse_failure_empty_fallback sampleRegistry jsonNone
    ⟨"call_1", ⟨"boom", "not json"⟩⟩ rfl⟩

/-- Claim C8, counterexample to the claim as stated: in
`update_memory [] "a: 1, bad line, b: 2"`, the malformed middle line (no
colon) is not "no update for that line only" — the well-formed pair `b: 2`
after it is discarded as well (the `ValueError` aborts the loop and the outer
`except` returns `False`), so only `a = 1` is applied. -/
theorem update_memory_discards_after_malformed :
    update_memory [] "a: 1, bad line, b: 2".data = ([("a".data, "1".data)], false) ∧
    ("b".data, "2".data) ∉ (update_memory [] "a: 1, bad line, b: 2".data).fst := by
  constructor
  · decide
  · decide

/-- Claim C8 (amended): the suggested-update text is split on commas then
colons and every well-formed `key: value` pair BEFORE the first malformed line
is applied via the memory's `set` and kept; the malformed line itself raises
`ValueError` inside the loop, which the enclosing handler converts into
returning `False` without propagating — so the malformed line and every line
after it are discarded, rather than only that line. -/
theorem update_memory_malformed_line_aborts (mem : Memory) (b : Bool)
    (goodLines : List PyStr) (bad : PyStr) (rest : List PyStr)
    (hgood : ∀ u ∈ goodLines, lineOk u = true) (hbad : lineOk bad = false) :
    applyUpdates mem b (goodLines ++ bad :: rest) =
      ((applyUpdates mem b goodLines).fst, false) := by
  induction goodLines generalizing mem b with
  | nil =>
      simp only [lineOk, Bool.or_eq_false_iff] at hbad
      obtain ⟨hb1, hb2⟩ := hbad
      simp only [List.nil_append, applyUpdates, hb1, Bool.false_eq_true, if_false]
      rcases hsp : pySplitOn ':' (pyStrip bad) with _ | ⟨x, _ | ⟨y, _ | ⟨z, tl⟩⟩⟩
      · rfl
      · rfl
      · rw [hsp] at hb2
        simp at hb2
      · rfl
  | cons u l ih =>
      have hu : lineOk u = true := hgood u (List.mem_cons_self u l)
      have hgood' : ∀ w ∈ l, lineOk w = true := fun w hw => hgood w (List.mem_cons_of_mem u hw)
      by_cases hs : pyStartswith "None".data (pyStrip u) = true
      · simp only [List.cons_append, applyUpdates, hs, if_true]
        exact ih mem b hgood'
      · have hs' : pyStartswith "None".data (pyStrip u) = false := eq_false_of_ne_true hs
        have hu2 : ((pySplitOn ':' (pyStrip u)).length == 2) = true := by
          simp only [lineOk, hs', Bool.false_or] at hu
          exact hu
        rcases hsp : pySplitOn ':' (pyStrip u) with _ | ⟨x, _ | ⟨y, _ | ⟨z, tl⟩⟩⟩
        · rw [hsp] at hu2
          simp at hu2
        · rw [hsp] at hu2
          simp at hu2
        · simp only [List.cons_append, applyUpdates, hs', Bool.false_eq_true, if_false, hsp]
          exact ih (dictSet mem (pyStrip x) (pyStrip y)) true hgood'
        · rw [hsp] at hu2
          simp at hu2

/-- Witness for C8: the concrete lines of the counterexample, processed by the
amended statement. -/
theorem update_memory_malformed_line_aborts_witness :
    ((∀ u ∈ ["a: 1".data], lineOk u = true) ∧ lineOk " bad line".data = false) ∧
    applyUpdates [] false (["a: 1".data] ++ " bad line".data :: [" b: 2".data]) =
      ((applyUpdates [] false ["a: 1".data]).fst, false) :=
  ⟨⟨by decide, by decide⟩,
    update_memory_malformed_line_aborts [] false ["a: 1".data] " bad line".data
      [" b: 2".data] (by decide) (by decide)⟩

/-- Claim C9: `ask_ai` raises `TypeError` before any model call: the first
memory-manager construction passes the keyword `memory_file`, which the
`__init__` signature (`memory_content` only) does not accept — the result is
the same error for every model oracle, so no model call happens; moreover the
`query_openai` call written further down also binds the unknown keyword
`references`; consequently `ask_ai` never returns a response string. -/
theorem ask_ai_raises_type_error :
    (∀ (api_key : Option String) (reg : FunctionsRegistry)
        (jsonLoads : String → Option ArgMap) (respSeq : Nat → ModelResponse),
      ask_ai api_key reg jsonLoads respSeq =
        Except.error
          "TypeError: LongTermMemoryManager got an unexpected keyword argument memory_file") ∧
    bindKwargs queryOpenaiParams askAiQueryOpenaiKwargs = some "references" ∧
    (∀ (api_key : Option String) (reg : FunctionsRegistry)
        (jsonLoads : String → Option ArgMap) (respSeq : Nat → ModelResponse)
        (s : String), ask_ai api_key reg jsonLoads respSeq ≠ Except.ok s) := by
  refine ⟨fun _ _ _ _ => rfl, rfl, fun a r j p s h => ?_⟩
  rw [show ask_ai a r j p = Except.error
      "TypeError: LongTermMemoryManager got an unexpected keyword argument memory_file"
    from rfl] at h
  exact Except.noConfusion h

/-- Claim C10: `query_openai` writes CURRENT_QUERY / MESSAGE_SOURCE into the
globals of its own module (`aiagent.handler.query`), while
`send_twilio_message` reads the globals of `aiagent.functions.schema.twilio`,
where those names are never bound — so the recorded `original_request` is
always the fallback "Unknown request" and `source` is always
"website_visitor". -/
theorem twilio_sms_tracking_reads_fallbacks (g : ModuleGlobals) (q s : String)
    (h1 : g.schema_twilio.find? (fun p => p.fst == "CURRENT_QUERY") = none)
    (h2 : g.schema_twilio.find? (fun p => p.fst == "MESSAGE_SOURCE") = none) :
    twilioOriginalRequest (setQueryTrackingGlobals g q s) = "Unknown request" ∧
    twilioMessageSource (setQueryTrackingGlobals g q s) = "website_visitor" := by
  constructor
  · simp [twilioOriginalRequest, setQueryTrackingGlobals, dictGet, h1]
  · simp [twilioMessageSource, setQueryTrackingGlobals, dictGet, h2]

/-- Witness for C10: the interpreter-start namespaces; after `query_openai`
stores a concrete query and source, the twilio module still reads the
fallbacks. -/
theorem twilio_sms_tracking_reads_fallbacks_witness :
    (initialGlobals.schema_twilio.find? (fun p => p.fst == "CURRENT_QUERY") = none ∧
      initialGlobals.schema_twilio.find? (fun p => p.fst == "MESSAGE_SOURCE") = none) ∧
    (twilioOriginalRequest
        (setQueryTrackingGlobals initialGlobals "Please contact Gad" "sms") =
      "Unknown request" ∧
    twilioMessageSource
        (setQueryTrackingGlobals initialGlobals "Please contact Gad" "sms") =
      "website_visitor") :=
  ⟨⟨rfl, rfl⟩, twilio_sms_tracking_reads_fallbacks initialGlobals
    "Please contact Gad" "sms" rfl rfl⟩
